import Mathlib

/-!
Shallow embedding of `papis/format.py` (the pluggable formatting engine of the
papis fork under verification): Python values and documents, the exception
values the module can produce, the three formatter variants
(`PythonFormater`, `Jinja2Formater`, `CustomFormater`), and the process-wide
formatter cache `get_formater`.

Python's runtime is modelled as follows: a call either returns a value or
raises an exception, so fallible code has type `Except PyExc α`; the module's
global `_FORMATER` is threaded as explicit state; the external collaborators
`papis.config.getstring` (total on its option names), the plugin registry
(an association list from entrypoint names to constructed plugin instances)
and the template backends (`str.format`, `jinja2.Template(...).render`) are
parameters of the embedded functions.  String operations from the Python
standard library (`str.lower`, `str.capitalize`, slicing, `str.split()`,
`re.sub` with the character-class patterns used here) are implemented
character by character below; case mapping is modelled on the ASCII range,
which the citation-key pipeline then restricts to `[0-9a-z ]` exactly as the
source's regular expressions do.
-/

/-- Python values as far as `format.py` touches them: strings, lists and
string-keyed dictionaries (documents, author entries). -/
inductive Value where
  | str : String → Value
  | vlist : List Value → Value
  | vdict : List (String × Value) → Value

/-- A papis document as seen by the formatters: a mapping from string keys to
values (`FormatDocType` in the source).  Association list with the usual
first-match lookup. -/
abbrev Doc := List (String × Value)

/-- The exceptions `format.py` can raise or catch, with enough structure to
render `str(exception)` where the source returns it. -/
inductive PyExc where
  | nameError (name : String)
  | keyError (key : String)
  | attributeError (cls attr : String)
  | other (msg : String)
deriving DecidableEq, Repr

/-- Python's `str(exception)` for the exceptions modelled here. -/
def PyExc.toString : PyExc → String
  | .nameError n => "name '" ++ n ++ "' is not defined"
  | .keyError k => "'" ++ k ++ "'"
  | .attributeError cls attr =>
      "'" ++ cls ++ "' object has no attribute '" ++ attr ++ "'"
  | .other m => m

/-- `dict.update`: add every pair of `src` to `dst`, later keys overriding
earlier ones; modelled by appending `src` in front for first-match lookup.
`PythonFormater.format` uses it to copy the document into a fresh
`Document()`. -/
def Document_update (dst src : Doc) : Doc :=
  src ++ dst.filter (fun kv => !(src.any (fun kv2 => kv2.1 == kv.1)))

/-- Python `str.format` and `jinja2.Template(...).render` are external
collaborators: a substitution engine takes the template and the keyword
bindings and returns the rendered string or raises. -/
def Subst := String → List (String × Value) → Except PyExc String

/-- The binding set `PythonFormater.format` hands to `str.format`:
`{doc_name: fdoc, **additional}` where `doc_name = doc_key or
papis.config.getstring("format-doc-name")` and `fdoc` is a fresh `Document`
updated with `doc`'s items. -/
def pythonFormatBindings (getstring : String → String) (doc : Doc)
    (docKey : String) (additional : List (String × Value)) :
    List (String × Value) :=
  let docName := if docKey = "" then getstring "format-doc-name" else docKey
  (docName, Value.vdict (Document_update [] doc)) :: additional

/-- `PythonFormater.format` (format.py lines 43–54).  Computes the document
name, copies the document into a fresh `Document`, and evaluates the format
string; every exception from the evaluation is caught and `str(exception)`
returned as the result.  The second component is the document after the
call (the source never writes into `doc`; only the fresh copy `fdoc` is
updated). -/
def PythonFormater_format (getstring : String → String) (subst : Subst)
    (fmt : String) (doc : Doc) (docKey : String)
    (additional : List (String × Value)) : Except PyExc String × Doc :=
  match subst fmt (pythonFormatBindings getstring doc docKey additional) with
  | .ok s => (.ok s, doc)
  | .error e => (.ok (PyExc.toString e), doc)

/-- `Jinja2Formater`: its only instance attribute, `self.jinja2`, is set in
`__init__` only when `import jinja2` succeeded. -/
structure Jinja2Formater where
  jinja2 : Option Subst

/-- `Jinja2Formater.__init__` (format.py lines 62–72): tries the import; on
`ImportError` it logs (`logger.exception(...)`) and falls through, completing
construction with the `jinja2` attribute unset.  The argument is the outcome
of `import jinja2` (the backend when available). -/
def Jinja2Formater_init (importJinja2 : Option Subst) :
    Except PyExc Jinja2Formater :=
  match importJinja2 with
  | some j => .ok ⟨some j⟩
  | none => .ok ⟨none⟩

/-- `Jinja2Formater.format` (format.py lines 74–85): computes the document
name, then inside `try` reads `self.jinja2` (an `AttributeError` when
the import failed at construction) and renders; every exception is caught and
`str(exception)` returned.  The document itself is passed to `render`
(no copy); the second component is the document after the call. -/
def Jinja2Formater_format (getstring : String → String)
    (self : Jinja2Formater) (fmt : String) (doc : Doc) (docKey : String)
    (additional : List (String × Value)) : Except PyExc String × Doc :=
  let docName := if docKey = "" then getstring "format-doc-name" else docKey
  match self.jinja2 with
  | none =>
      (.ok (PyExc.toString (.attributeError "Jinja2Formater" "jinja2")), doc)
  | some render =>
      match render fmt ((docName, Value.vdict doc) :: additional) with
      | .ok s => (.ok s, doc)
      | .error e => (.ok (PyExc.toString e), doc)

/-- Python `str.lower`, modelled on the ASCII range (`Char.toLower` maps
`A`–`Z` and leaves every other code point unchanged; the pipeline's regular
expressions then keep only `[0-9a-z ]`). -/
def pyLower (s : String) : String :=
  String.mk (s.toList.map Char.toLower)

/-- `re.sub('[^a-z]+', '', s)`: delete every character outside `a`–`z`. -/
def keepLower (s : String) : String :=
  String.mk (s.toList.filter Char.isLower)

/-- Python `s[-2:]`: the last two characters, or all of `s` when shorter. -/
def lastTwo (s : String) : String :=
  String.mk (s.toList.drop (s.toList.length - 2))

/-- `re.sub('-', ' ', s)`: replace every hyphen by a space. -/
def hyphenToSpace (s : String) : String :=
  String.mk (s.toList.map (fun c => if c = '-' then ' ' else c))

/-- `re.sub('[^0-9a-z ]+', '', s)`: delete every character outside
`0`–`9`, `a`–`z` and the space. -/
def keepDigitLowerSpace (s : String) : String :=
  String.mk (s.toList.filter (fun c => c.isDigit || c.isLower || c == ' '))

/-- Splitter behind Python's no-argument `str.split()`: maximal runs of
non-whitespace characters, in order; no empty tokens.  `acc` holds the
current run, reversed. -/
def splitWSAux : List Char → List Char → List (List Char)
  | [], acc => if acc.isEmpty then [] else [acc.reverse]
  | c :: cs, acc =>
    if c.isWhitespace then
      if acc.isEmpty then splitWSAux cs []
      else acc.reverse :: splitWSAux cs []
    else splitWSAux cs (c :: acc)

/-- Python's `s.split()` (no argument): split on whitespace runs, dropping
empty pieces. -/
def pySplit (s : String) : List String :=
  (splitWSAux s.toList []).map String.mk

/-- Python `str.capitalize`: first character upper-cased, the rest
lower-cased (ASCII model; the tokens it is applied to are drawn from
`[0-9a-z]`). -/
def pyCapitalize (s : String) : String :=
  match s.toList with
  | [] => ""
  | c :: cs => String.mk (c.toUpper :: cs.map Char.toLower)

/-- `CustomFormater.SKIP_WORDS` (format.py lines 91–112), in source order —
including the entry `" thru"` with its leading space, the multi-word entries
(`"according to"`, …) and the repeated `"for"`.  The source wraps this list
in `set(...)`; membership testing is the only operation used, so a list with
`∈` is an equivalent model. -/
def SKIP_WORDS : List String := [
  "about", "above", "across", "afore", "after", "against", "al",
  "along", "alongside", "amid", "amidst", "among", "amongst", "anenst",
  "apropos", "apud", "around", "as", "aside", "astride", "at",
  "athwart", "atop", "barring", "before", "behind", "below", "beneath",
  "beside", "besides", "between", "beyond", "but", "by", "circa",
  "despite", "down", "during", "et", "except", "for", "forenenst",
  "from", "given", "in", "inside", "into", "lest", "like", "modulo",
  "near", "next", "notwithstanding", "of", "off", "on", "onto", "out",
  "over", "per", "plus", "pro", "qua", "sans", "since", "than",
  "through", " thru", "throughout", "thruout", "till", "to", "toward",
  "towards", "under", "underneath", "until", "unto", "up", "upon",
  "versus", "vs.", "v.", "vs", "v", "via", "vis-à-vis", "with",
  "within", "without", "according to", "ahead of", "apart from",
  "as for", "as of", "as per", "as regards", "aside from", "back to",
  "because of", "close to", "due to", "except for", "far from",
  "inside of", "instead of", "near to", "next to", "on to", "out from",
  "out of", "outside of", "prior to", "pursuant to", "rather than",
  "regardless of", "such as", "that of", "up to", "where as", "or",
  "yet", "so", "for", "and", "nor", "a", "an", "the", "de", "d'",
  "von", "van", "c", "ca"]

/-- The title tokenisation of the `custom_ref` branch (format.py lines
122–127 up to the split): lower-case the title, turn hyphens into spaces,
delete characters outside `[0-9a-z ]`, split on whitespace. -/
def customRefTitleTokens (title : String) : List String :=
  pySplit (keepDigitLowerSpace (hyphenToSpace (pyLower title)))

/-- The citation-key computation written in the `custom_ref` branch of
`CustomFormater.format` (format.py lines 120–127), parameterised by the
stop-word list used in the filter: `author` is the first author's family
lower-cased with `[^a-z]` deleted, `year[-2:]` the year suffix, and the
title part keeps the tokens that are non-empty and not stop words,
capitalises them, and joins the first four. -/
def custom_ref_key_with (skip : List String) (family year title : String) :
    String :=
  let author := keepLower (pyLower family)
  let yearTok := lastTwo year
  let words := ((customRefTitleTokens title).filter
      (fun w => !(w == "") && !(skip.contains w))).map pyCapitalize
  author ++ yearTok ++ "_" ++ String.join (words.take 4)

/-- The citation-key computation of the `custom_ref` branch, read with `re`
as Python's regex module and `SKIP_WORDS` as `CustomFormater.SKIP_WORDS` —
the names the branch evidently intends.  As written the branch resolves
neither name; see `CustomFormater_format`. -/
def custom_ref_key : String → String → String → String :=
  custom_ref_key_with SKIP_WORDS

/-- `CustomFormater.format` (format.py lines 114–130) as executed.  The
module's imports are `logging`, `typing`, `papis.config`, `papis.plugin` and
`papis.document`: the name `re` is never bound, and Python resolves the
callee `re.sub` before evaluating its arguments, so the `custom_ref` branch
raises `NameError: name 're' is not defined` before touching the document.
(`SKIP_WORDS` on line 125 is a second unresolvable bare name — class
attributes are not in a method's scope — but execution never reaches it.)
Every other template delegates to a fresh `PythonFormater`. -/
def CustomFormater_format (getstring : String → String) (subst : Subst)
    (fmt : String) (doc : Doc) (docKey : String)
    (additional : List (String × Value)) : Except PyExc String × Doc :=
  if fmt = "custom_ref" then
    (.error (.nameError "re"), doc)
  else
    PythonFormater_format getstring subst fmt doc docKey additional

/-- The exception raised by `get_formater` for an unregistered formatter
name, with the constructor arguments the source passes:
`InvalidFormatterValue("Registered formatters are: %s", <entrypoints>)`.
The requested name is not among the arguments (it is only passed to
`logger.error`). -/
structure InvalidFormatterValue where
  msg : String
  entrypoints : List String
deriving DecidableEq, Repr

/-- The module-level cache `_FORMATER`, threaded explicitly.  `α` is the
type of constructed formatter plugin instances. -/
structure FormaterState (α : Type) where
  _FORMATER : Option α
deriving DecidableEq, Repr

/-- `get_formater` (format.py lines 141–152).  When the cache is empty it
reads the configured name, looks it up in the plugin registry (an
association list from entrypoint names to constructed instances, modelling
`get_extension_manager(...)[name].plugin()`), stores the result in the
cache on success, and on `KeyError` logs and raises
`InvalidFormatterValue("Registered formatters are: %s", <registered names>)`
leaving the cache untouched (the assignment's right-hand side raised).
When the cache is full it returns the cached instance directly. -/
def get_formater {α : Type} (getstring : String → String)
    (plugins : List (String × α)) (st : FormaterState α) :
    Except InvalidFormatterValue α × FormaterState α :=
  match st._FORMATER with
  | some f => (.ok f, st)
  | none =>
    let name := getstring "formater"
    match plugins.lookup name with
    | some f => (.ok f, ⟨some f⟩)
    | none =>
      (.error ⟨"Registered formatters are: %s", plugins.map Prod.fst⟩, st)

/-- Whether `small` occurs as a prefix of `big` (character lists). -/
def isPrefixChars : List Char → List Char → Bool
  | [], _ => true
  | _ :: _, [] => false
  | a :: as, b :: bs => a == b && isPrefixChars as bs

/-- Whether `needle` occurs as a contiguous substring of `hay`. -/
def containsSub : List Char → List Char → Bool
  | [], needle => needle.isEmpty
  | c :: t, needle => isPrefixChars needle (c :: t) || containsSub t needle

/-- Whether the text of an `InvalidFormatterValue` — its message or any of
the entrypoint names it carries — mentions the string `s`. -/
def errMentions (e : InvalidFormatterValue) (s : String) : Bool :=
  containsSub e.msg.toList s.toList
    || e.entrypoints.any (fun n => containsSub n.toList s.toList)

/-- The entries of `SKIP_WORDS` that contain no space character.  Multi-word
entries such as `"according to"` and the stray `" thru"` are exactly the ones
dropped. -/
def spaceFreeSkipWords : List String :=
  SKIP_WORDS.filter (fun sw => !(sw.toList.contains ' '))

/-- A concrete configuration collaborator: every option reads `"doc"`. -/
def gsW : String → String := fun _ => "doc"

/-- A concrete configuration collaborator whose `"formater"` option is a name
no plugin registers. -/
def gsBad : String → String := fun _ => "nonexistent"

/-- A concrete configuration collaborator selecting the `"python"`
formatter. -/
def gsGood : String → String := fun _ => "python"

/-- A concrete substitution engine that always raises
`KeyError('title')`. -/
def substErrW : Subst := fun _ _ => .error (.keyError "title")

/-- A concrete plugin registry with three entrypoints (instances stand in as
numbers). -/
def pluginsW : List (String × Nat) := [("python", 0), ("jinja2", 1), ("custom", 2)]

/-- The spec's running example document: family `Müller`, year `2023`, title
`The Theory of Everything`. -/
def mullerDoc : Doc :=
  [("author_list", .vlist [.vdict [("family", .str "Müller")]]),
   ("year", .str "2023"),
   ("title", .str "The Theory of Everything")]

/-- A document with `author_list` and `title` but no `year`. -/
def docMissingYear : Doc :=
  [("author_list", .vlist [.vdict [("family", .str "Knuth")]]),
   ("title", .str "The Art of Computer Programming")]

/-! ## Helper lemmas -/

theorem splitWSAux_no_ws (s : List Char) :
    ∀ (acc : List Char), (∀ c ∈ acc, c.isWhitespace = false) →
      ∀ t ∈ splitWSAux s acc, ∀ c ∈ t, c.isWhitespace = false := by
  induction s with
  | nil =>
    intro acc hacc t ht c hc
    cases acc with
    | nil => simp [splitWSAux] at ht
    | cons a as =>
      simp [splitWSAux] at ht
      subst ht
      exact hacc c (by simp at hc ⊢; tauto)
  | cons b bs ih =>
    intro acc hacc t ht c hc
    by_cases hb : b.isWhitespace
    · cases acc with
      | nil =>
        simp [splitWSAux, hb] at ht
        exact ih [] (by simp) t ht c hc
      | cons a as =>
        simp [splitWSAux, hb] at ht
        rcases ht with h | h
        · subst h
          exact hacc c (by simp at hc ⊢; tauto)
        · exact ih [] (by simp) t h c hc
    · simp [splitWSAux, hb] at ht
      refine ih (b :: acc) ?_ t ht c hc
      intro c' hc'
      rcases List.mem_cons.mp hc' with h | h
      · subst h
        simpa using hb
      · exact hacc c' h

theorem customRefTitleTokens_no_space (title : String) :
    ∀ t ∈ customRefTitleTokens title, ' ' ∉ t.toList := by
  intro t ht hsp
  unfold customRefTitleTokens pySplit at ht
  rw [List.mem_map] at ht
  obtain ⟨l, hl, rfl⟩ := ht
  have hws := splitWSAux_no_ws _ [] (by simp) l hl ' ' hsp
  exact absurd hws (by decide)

theorem skip_contains_agrees (w : String) (hw : ' ' ∉ w.toList) :
    SKIP_WORDS.contains w = spaceFreeSkipWords.contains w := by
  have hmem : (w ∈ SKIP_WORDS) ↔ (w ∈ spaceFreeSkipWords) := by
    constructor
    · intro h
      unfold spaceFreeSkipWords
      rw [List.mem_filter]
      refine ⟨h, ?_⟩
      simp [List.elem_eq_mem]
      exact hw
    · intro h
      exact (List.mem_filter.mp h).1
  have h1 : SKIP_WORDS.contains w = decide (w ∈ SKIP_WORDS) :=
    List.elem_eq_mem w SKIP_WORDS
  have h2 : spaceFreeSkipWords.contains w = decide (w ∈ spaceFreeSkipWords) :=
    List.elem_eq_mem w spaceFreeSkipWords
  rw [h1, h2]
  exact decide_eq_decide.mpr hmem

/-! ## Claim theorems -/

/-- C1: the claim says `custom_ref` formatting returns
`authorToken + yearToken + "_" + titleToken`, with
`"mller23_TheoryEverything"` on the Müller example.  The stated algorithm
(lines 120–127, names resolved as intended) does compute exactly that key,
but the code as executed raises `NameError: name 're' is not defined` on
every `custom_ref` call — the module never imports `re` — so no key is ever
returned. -/
theorem C1_custom_ref_key_example :
    (CustomFormater_format gsW substErrW "custom_ref" mullerDoc "" []).1
        = .error (.nameError "re") ∧
    custom_ref_key "Müller" "2023" "The Theory of Everything"
        = "mller23_TheoryEverything" :=
  ⟨rfl, by decide⟩

/-- C2: the claim says a document lacking `author_list`, `year` or `title`
makes `custom_ref` formatting raise a typed missing-field error and never an
untyped failure.  On a document without `year` the code instead raises the
untyped `NameError: name 're' is not defined` (the callee `re.sub` is
resolved before any document field is read), which is not the missing-field
`KeyError('year')`. -/
theorem C2_missing_year_untyped_failure :
    (CustomFormater_format gsW substErrW "custom_ref" docMissingYear "" []).1
        = .error (.nameError "re") ∧
    PyExc.nameError "re" ≠ PyExc.keyError "year" :=
  ⟨rfl, by decide⟩

/-- C3: `PythonFormater.format` never lets an evaluation failure escape: for
every substitution engine, template, document, document key and additional
bindings the call returns normally, and whenever the engine raises, the
returned string is the failure's textual description. -/
theorem C3_python_formater_fail_soft (getstring : String → String)
    (subst : Subst) (fmt : String) (doc : Doc) (docKey : String)
    (additional : List (String × Value)) :
    (PythonFormater_format getstring subst fmt doc docKey additional).1.isOk
        = true ∧
    ∀ e : PyExc,
      subst fmt (pythonFormatBindings getstring doc docKey additional)
          = .error e →
      (PythonFormater_format getstring subst fmt doc docKey additional).1
          = .ok (PyExc.toString e) := by
  constructor
  · unfold PythonFormater_format
    cases subst fmt (pythonFormatBindings getstring doc docKey additional) <;>
      rfl
  · intro e he
    unfold PythonFormater_format
    rw [he]

/-- Witness for C3 at a concrete failing engine: the `KeyError('title')`
raised by the substitution becomes the output string `'title'`. -/
theorem C3_python_formater_fail_soft_witness :
    (PythonFormater_format gsW substErrW "{doc}" [] "" []).1
      = .ok (PyExc.toString (.keyError "title")) :=
  (C3_python_formater_fail_soft gsW substErrW "{doc}" [] "" []).2
    (.keyError "title") rfl

/-- C4: any template other than `"custom_ref"` makes `CustomFormater.format`
return exactly what a direct `PythonFormater.format` call on the same inputs
returns (verbatim delegation). -/
theorem C4_custom_delegates_to_python (getstring : String → String)
    (subst : Subst) (fmt : String) (doc : Doc) (docKey : String)
    (additional : List (String × Value)) (h : fmt ≠ "custom_ref") :
    CustomFormater_format getstring subst fmt doc docKey additional
      = PythonFormater_format getstring subst fmt doc docKey additional := by
  unfold CustomFormater_format
  rw [if_neg h]

/-- Witness for C4 at the concrete template `"ref"`. -/
theorem C4_custom_delegates_to_python_witness :
    CustomFormater_format gsW substErrW "ref" mullerDoc "" []
      = PythonFormater_format gsW substErrW "ref" mullerDoc "" [] :=
  C4_custom_delegates_to_python gsW substErrW "ref" mullerDoc "" []
    (by decide)

/-- C5: once a call to `get_formater` has succeeded, every later call —
even under a different configuration and a different plugin registry —
returns the same formatter instance and leaves the cache untouched: the
configured name is resolved at most once per process. -/
theorem C5_get_formater_resolved_once {α : Type} (getstring : String → String)
    (plugins : List (String × α)) (st st1 : FormaterState α) (f : α)
    (h : get_formater getstring plugins st = (.ok f, st1)) :
    ∀ (gs2 : String → String) (plugins2 : List (String × α)),
      get_formater gs2 plugins2 st1 = (.ok f, st1) := by
  intro gs2 plugins2
  have hcache : st1._FORMATER = some f := by
    simp only [get_formater] at h
    cases hst : st._FORMATER with
    | some g =>
      simp only [hst] at h
      injection h with h1 h2
      injection h1 with h3
      rw [← h2, hst, h3]
    | none =>
      simp only [hst] at h
      cases hlk : plugins.lookup (getstring "formater") with
      | some g =>
        simp only [hlk] at h
        injection h with h1 h2
        injection h1 with h3
        rw [← h2, h3]
      | none =>
        simp only [hlk] at h
        exact absurd (congrArg Prod.fst h) (by simp)
  simp only [get_formater, hcache]

/-- Witness for C5: after resolving `"python"` the cache holds plugin `0`,
and a second call with a different configuration and registry returns it
unchanged. -/
theorem C5_get_formater_resolved_once_witness :
    get_formater gsBad [] (⟨some 0⟩ : FormaterState Nat) = (.ok 0, ⟨some 0⟩) :=
  C5_get_formater_resolved_once gsGood pluginsW ⟨none⟩ ⟨some 0⟩ 0 rfl gsBad []

/-- C6 (counterexample to the claim as stated): with the configured name
`"nonexistent"` and registered entrypoints `python`, `jinja2`, `custom`,
`get_formater` does raise a typed `InvalidFormatterValue` carrying the
registered names — but neither its message nor the carried names mention the
requested value `"nonexistent"` anywhere (the requested name goes only to
`logger.error`). -/
theorem C6_error_omits_requested_name :
    (get_formater gsBad pluginsW (⟨none⟩ : FormaterState Nat)).1
        = .error ⟨"Registered formatters are: %s",
            ["python", "jinja2", "custom"]⟩ ∧
    errMentions
        ⟨"Registered formatters are: %s", ["python", "jinja2", "custom"]⟩
        "nonexistent" = false :=
  ⟨rfl, by decide⟩

/-- C6 (amended): when the cache is empty and the configured name is
unregistered, `get_formater` raises a typed `InvalidFormatterValue` whose
arguments are the format string `"Registered formatters are: %s"` and the
list of registered entrypoint names; no formatter is returned and the cache
is unchanged.  (The requested value itself appears only in the log, not in
the error.) -/
theorem C6_invalid_name_typed_error {α : Type} (getstring : String → String)
    (plugins : List (String × α)) (st : FormaterState α)
    (h0 : st._FORMATER = none)
    (h1 : plugins.lookup (getstring "formater") = none) :
    get_formater getstring plugins st
      = (.error ⟨"Registered formatters are: %s", plugins.map Prod.fst⟩,
         st) := by
  simp only [get_formater, h0, h1]

/-- Witness for C6 (amended) at the concrete registry `pluginsW` and the
unregistered name `"nonexistent"`. -/
theorem C6_invalid_name_typed_error_witness :
    get_formater gsBad pluginsW (⟨none⟩ : FormaterState Nat)
      = (.error ⟨"Registered formatters are: %s",
          ["python", "jinja2", "custom"]⟩, ⟨none⟩) :=
  C6_invalid_name_typed_error gsBad pluginsW ⟨none⟩ rfl rfl

/-- C7: no formatter mutates the document: for every call, the document
after formatting equals the document passed in — `PythonFormater` copies it
into a fresh `Document` and updates only the copy; `Jinja2Formater` only
hands it to the renderer; `CustomFormater` reads it or delegates. -/
theorem C7_document_not_mutated (getstring : String → String) (subst : Subst)
    (j : Jinja2Formater) (fmt : String) (doc : Doc) (docKey : String)
    (additional : List (String × Value)) :
    (PythonFormater_format getstring subst fmt doc docKey additional).2
        = doc ∧
    (Jinja2Formater_format getstring j fmt doc docKey additional).2 = doc ∧
    (CustomFormater_format getstring subst fmt doc docKey additional).2
        = doc := by
  have hpy :
      (PythonFormater_format getstring subst fmt doc docKey additional).2
        = doc := by
    unfold PythonFormater_format
    cases subst fmt (pythonFormatBindings getstring doc docKey additional) <;>
      rfl
  refine ⟨hpy, ?_, ?_⟩
  · simp only [Jinja2Formater_format]
    obtain ⟨oj⟩ := j
    cases oj with
    | none => rfl
    | some render =>
      cases hr : render fmt
          ((if docKey = "" then getstring "format-doc-name" else docKey,
            Value.vdict doc) :: additional) with
      | ok s => simp [hr]
      | error e => simp [hr]
  · unfold CustomFormater_format
    by_cases hf : fmt = "custom_ref"
    · rw [if_pos hf]
    · rw [if_neg hf]
      exact hpy

/-- C8: constructing `Jinja2Formater` never raises, whether or not the
`jinja2` import succeeds; when it failed, construction completes with the
attribute unset and the failure surfaces only at the first `format` call,
whose output is the `AttributeError`'s description. -/
theorem C8_jinja2_init_never_raises (imp : Option Subst)
    (getstring : String → String) (fmt : String) (doc : Doc)
    (docKey : String) (additional : List (String × Value)) :
    (Jinja2Formater_init imp).isOk = true ∧
    Jinja2Formater_init none = .ok ⟨none⟩ ∧
    (Jinja2Formater_format getstring ⟨none⟩ fmt doc docKey additional).1
      = .ok (PyExc.toString (.attributeError "Jinja2Formater" "jinja2")) := by
  refine ⟨?_, rfl, rfl⟩
  cases imp <;> rfl

/-- C9: every token the citation-key algorithm's whitespace split produces
contains no space, so the `SKIP_WORDS` entries that contain a space (the
multi-word entries and `" thru"`) never match any token: filtering with the
full set yields the same citation key as filtering with only its space-free
entries. -/
theorem C9_space_bearing_stopwords_inert (family year title : String) :
    (∀ t ∈ customRefTitleTokens title, ' ' ∉ t.toList) ∧
    custom_ref_key family year title
      = custom_ref_key_with spaceFreeSkipWords family year title := by
  refine ⟨customRefTitleTokens_no_space title, ?_⟩
  simp only [custom_ref_key, custom_ref_key_with]
  have hfil : (customRefTitleTokens title).filter
        (fun w => !(w == "") && !(SKIP_WORDS.contains w))
      = (customRefTitleTokens title).filter
        (fun w => !(w == "") && !(spaceFreeSkipWords.contains w)) := by
    apply List.filter_congr
    intro w hw
    rw [skip_contains_agrees w (customRefTitleTokens_no_space title w hw)]
  rw [hfil]

/-- Witness for C9 on the Müller title: the token `"theory"` is space-free,
and the key agrees under the full and the space-free stop-word sets. -/
theorem C9_space_bearing_stopwords_inert_witness :
    (' ' ∉ ("theory" : String).toList) ∧
    custom_ref_key "Müller" "2023" "The Theory of Everything"
      = custom_ref_key_with spaceFreeSkipWords "Müller" "2023"
          "The Theory of Everything" :=
  ⟨(C9_space_bearing_stopwords_inert "Müller" "2023"
      "The Theory of Everything").1 "theory" (by decide),
   (C9_space_bearing_stopwords_inert "Müller" "2023"
      "The Theory of Everything").2⟩

/-- C10: when `get_formater` fails, the cache is exactly as before the call
— still unset — so a later call re-reads the configured name and re-resolves
it against the registry, succeeding as a first call would. -/
theorem C10_error_leaves_cache_unset {α : Type} (getstring : String → String)
    (plugins : List (String × α)) (st st1 : FormaterState α)
    (e : InvalidFormatterValue)
    (h : get_formater getstring plugins st = (.error e, st1)) :
    st1 = st ∧ st1._FORMATER = none ∧
    ∀ (gs2 : String → String) (plugins2 : List (String × α)) (f : α),
      plugins2.lookup (gs2 "formater") = some f →
      get_formater gs2 plugins2 st1 = (.ok f, ⟨some f⟩) := by
  simp only [get_formater] at h
  cases hst : st._FORMATER with
  | some g =>
    simp only [hst] at h
    exact absurd (congrArg Prod.fst h) (by simp)
  | none =>
    simp only [hst] at h
    cases hlk : plugins.lookup (getstring "formater") with
    | some g =>
      simp only [hlk] at h
      exact absurd (congrArg Prod.fst h) (by simp)
    | none =>
      simp only [hlk] at h
      have hst1 : st1 = st := (congrArg Prod.snd h).symm
      refine ⟨hst1, ?_, ?_⟩
      · rw [hst1]
        exact hst
      · intro gs2 plugins2 f hf
        simp only [get_formater, hst1, hst, hf]

/-- Witness for C10: after the failed `"nonexistent"` lookup left the cache
unset, a call configured with the registered name `"python"` resolves plugin
`0` and caches it. -/
theorem C10_error_leaves_cache_unset_witness :
    get_formater gsGood pluginsW (⟨none⟩ : FormaterState Nat)
      = (.ok 0, ⟨some 0⟩) :=
  ((C10_error_leaves_cache_unset gsBad pluginsW ⟨none⟩ ⟨none⟩
      ⟨"Registered formatters are: %s", ["python", "jinja2", "custom"]⟩
      rfl).2.2) gsGood pluginsW 0 rfl
